import Mathlib

/-!
Shallow embedding of src/sheetcombine.py (mlb-nrsi-prediction), a linear
batch job that fetches a game schedule, enriches each game with probable
pitchers' season pitching statistics, and writes the result to a
spreadsheet.  External effects (the remote query service, the spreadsheet
store, sleeping) are modelled by explicit oracle arguments and by traces of
the calls issued; the Python functions become Lean functions over those
oracles.  Mutable state (the identifier cache) is passed explicitly.
-/

namespace SheetCombine

/-- A roster entry as returned by the sports_players query: the fields
the script reads are fullName and id (source line 38-42). -/
structure Player where
  fullName : String
  id : Nat
deriving DecidableEq, Repr

/-- The global cache_player_ids dict (source line 32), modelled as an
association list from player name to numeric id; inserts cons to the front,
so a later insert for the same key shadows an older one, matching dict
assignment. -/
abbrev Cache := List (String × Nat)

/-- Dict lookup: first binding for the key, if any. -/
def cacheLookup : Cache → String → Option Nat
  | [], _ => none
  | (n, i) :: rest, name => if n = name then some i else cacheLookup rest name

/-- The linear scan of source lines 39-42: the first roster player whose
fullName equals the requested name, if any. -/
def findPlayer : List Player → String → Option Nat
  | [], _ => none
  | p :: ps, name => if p.fullName = name then some p.id else findPlayer ps name

/-- Result of one get_player_id call: the returned value, the cache after
the call, how many roster fetches were issued (0 or 1), and whether a fetch
error was logged. -/
structure IdLookupResult where
  result : Option Nat
  cache : Cache
  fetches : Nat
  errorLogged : Bool
deriving DecidableEq, Repr

/-- Embedding of get_player_id (source lines 34-45).  The statsapi.get
roster call is the oracle fetch : season to Option roster, where none means
the call raised (any exception is caught at line 43, printed, and the
function falls through to return None).  On a cache hit no fetch is issued;
on a match the cache is updated before returning the id; on no-match or
fetch error the cache is untouched and None is returned. -/
def get_player_id (fetch : Nat → Option (List Player)) (cache : Cache)
    (player_name : String) (season : Nat) : IdLookupResult :=
  match cacheLookup cache player_name with
  | some pid => ⟨some pid, cache, 0, false⟩
  | none =>
    match fetch season with
    | none => ⟨none, cache, 1, true⟩
    | some players =>
      match findPlayer players player_name with
      | some pid => ⟨some pid, (player_name, pid) :: cache, 1, false⟩
      | none => ⟨none, cache, 1, false⟩

/-- Outcome of one attempt of the retry loop in get_player_stats (source
lines 49-67).  Within one attempt the statements run in this order: the
statsapi.player_stat_data call and the stats extraction (both can raise),
then the assignment relevant_keys = [...] (a literal, cannot raise), then
the dict comprehension in the return (can raise only if stats has no get
method).  raiseEarly is an exception before the relevant_keys assignment,
raiseLate an exception after it; success carries the extracted stats dict
as an association list. -/
inductive AttemptOutcome where
  | raiseEarly
  | raiseLate (stats : List (String × String))
  | success (stats : List (String × String))
deriving DecidableEq, Repr

/-- The exception that can escape get_player_stats itself: the final
return at source line 68 references the local relevant_keys, which is
unbound when no attempt reached its assignment. -/
inductive StatsError where
  | unboundLocalError
deriving DecidableEq, Repr

/-- The nine stat keys extracted by get_player_stats (source lines 59-63);
the same literal list reappears in process_game_data (source lines 103 and
105). -/
def relevant_keys : List String :=
  ["era", "whip", "strikeoutsPer9Inn", "walksPer9Inn",
   "hitsPer9Inn", "runsScoredPer9", "homeRunsPer9",
   "inningsPitched", "gamesStarted"]

/-- Python dict .get key with default the empty string, on the association
list modelling of a stats dict. -/
def statsGet (stats : List (String × String)) (key : String) : String :=
  match stats.find? (fun kv => kv.fst = key) with
  | some kv => kv.snd
  | none => ""

/-- The for-attempt-in-range loop of get_player_stats.  attempt gives the
outcome of each try body; keysBound records whether relevant_keys has been
assigned by some earlier attempt.  Returns the result (ok dict, or the
UnboundLocalError raised by the fall-through return when relevant_keys was
never bound) together with the number of stats requests issued. -/
def get_player_stats_loop (attempt : Nat → AttemptOutcome) (idx : Nat)
    (fuel : Nat) (keysBound : Bool) :
    Except StatsError (List (String × String)) × Nat :=
  match fuel with
  | 0 =>
    if keysBound then
      (Except.ok (relevant_keys.map fun k => (k, "")), 0)
    else
      (Except.error StatsError.unboundLocalError, 0)
  | f + 1 =>
    match attempt idx with
    | AttemptOutcome.success stats =>
        (Except.ok (relevant_keys.map fun k => (k, statsGet stats k)), 1)
    | AttemptOutcome.raiseEarly =>
        let r := get_player_stats_loop attempt (idx + 1) f keysBound
        (r.1, r.2 + 1)
    | AttemptOutcome.raiseLate _ =>
        let r := get_player_stats_loop attempt (idx + 1) f true
        (r.1, r.2 + 1)

/-- Embedding of get_player_stats (source lines 48-68).  player_id and
season only parametrise the remote call, which the oracle attempt models
per attempt index; retries is the loop bound (default 3 at the call sites).
The first component is what the function returns or raises, the second how
many underlying stats requests were issued. -/
def get_player_stats (attempt : Nat → AttemptOutcome)
    (player_id season retries : Nat) :
    Except StatsError (List (String × String)) × Nat :=
  let _ := player_id
  let _ := season
  get_player_stats_loop attempt 0 retries false

example :
    get_player_stats (fun _ => AttemptOutcome.raiseEarly) 999 2025 3 =
      (Except.error StatsError.unboundLocalError, 3) := rfl

example :
    (get_player_stats (fun _ => AttemptOutcome.raiseLate []) 999 2025 3).1 =
      Except.ok (relevant_keys.map fun k => (k, "")) := rfl

/-- A schedule entry as read by process_game_data (source lines 77-99):
the game fields the script uses.  The probable pitcher fields are read
with dict .get and default to the empty string, so a missing key is
modelled as none. -/
structure Game where
  game_id : String
  away_name : String
  home_name : String
  away_probable_pitcher : Option String
  home_probable_pitcher : Option String
deriving DecidableEq, Repr

/-- game.get away_probable_pitcher with default the empty string
(source line 78). -/
def awayPitcherName (g : Game) : String := g.away_probable_pitcher.getD ""

/-- game.get home_probable_pitcher with default the empty string
(source line 79). -/
def homePitcherName (g : Game) : String := g.home_probable_pitcher.getD ""

/-- One side of the enrichment in the loop body of process_game_data
(source lines 81-92), shared by the away and home sides.  resolve models
the get_player_id call and retrieve the get_player_stats call; the two
counters say how many calls of each kind were issued for this side.
Python truthiness is embedded exactly: the pitcher name guard is false for
the empty string, and the id guard if away_id is false both for None and
for the number 0. -/
def pitcherSide (resolve : String → Option Nat)
    (retrieve : Nat → List (String × String)) (name : String) :
    List (String × String) × Nat × Nat :=
  if name = "" then ([], 0, 0)
  else
    match resolve name with
    | none => ([], 1, 0)
    | some pid => if pid = 0 then ([], 1, 0) else (retrieve pid, 1, 1)

/-- Result of processing one game: the assembled row and the number of
resolver (get_player_id) and retriever (get_player_stats) calls issued for
each side. -/
structure GameRowResult where
  row : List String
  awayResolverCalls : Nat
  awayRetrieverCalls : Nat
  homeResolverCalls : Nat
  homeRetrieverCalls : Nat
deriving DecidableEq, Repr

/-- Embedding of the loop body of process_game_data (source lines 77-109)
for one game: read both pitcher names, enrich each side independently, and
append the row of 5 header fields followed by the away then home stat
fields, each side read out of its stats dict with .get key and default the
empty string over the literal nine-key list (source lines 94-106). -/
def process_game (resolve : String → Option Nat)
    (retrieve : Nat → List (String × String)) (g : Game) : GameRowResult :=
  let an := awayPitcherName g
  let hn := homePitcherName g
  let away := pitcherSide resolve retrieve an
  let home := pitcherSide resolve retrieve hn
  ⟨[g.game_id, g.away_name, g.home_name, an, hn]
      ++ relevant_keys.map (fun k => statsGet away.1 k)
      ++ relevant_keys.map (fun k => statsGet home.1 k),
   away.2.1, away.2.2, home.2.1, home.2.2⟩

/-- Embedding of process_game_data (source lines 75-110): one assembled
row per input game, in order.  The half-second sleep after each game has
no effect on the data and is not modelled. -/
def process_game_data (resolve : String → Option Nat)
    (retrieve : Nat → List (String × String)) (games : List Game) :
    List (List String) :=
  games.map (fun g => (process_game resolve retrieve g).row)

/-- Modelled from the spec: the documented positional layout of an output
row — game id, away team name, home team name, away pitcher name, home
pitcher name, then the nine away stat fields (ERA, WHIP, K/9, BB/9, H/9,
R/9, HR/9, IP, GS) and the nine home stat fields in the same order, 23
columns total.  The stat accessors map the spec names to the source keys. -/
def specOutputRow (gameId awayTeam homeTeam awayPitcher homePitcher : String)
    (awayStat homeStat : String → String) : List String :=
  [gameId, awayTeam, homeTeam, awayPitcher, homePitcher,
   awayStat "era", awayStat "whip", awayStat "strikeoutsPer9Inn",
   awayStat "walksPer9Inn", awayStat "hitsPer9Inn", awayStat "runsScoredPer9",
   awayStat "homeRunsPer9", awayStat "inningsPitched", awayStat "gamesStarted",
   homeStat "era", homeStat "whip", homeStat "strikeoutsPer9Inn",
   homeStat "walksPer9Inn", homeStat "hitsPer9Inn", homeStat "runsScoredPer9",
   homeStat "homeRunsPer9", homeStat "inningsPitched", homeStat "gamesStarted"]

/-- A destination-store call issued by the Sheet Writer, with the range it
targets. -/
inductive SheetCall where
  | clearRange (range : String)
  | updateRange (range : String)
deriving DecidableEq, Repr

/-- A log line printed by the Sheet Writer. -/
inductive LogEvent where
  | clearedOk
  | clearFailed
  | updateOk
  | updateFailed
deriving DecidableEq, Repr

/-- Embedding of clear_google_sheet_range (source lines 113-122): the
clear call on range nrsi_confidence!A:W is issued; clearFails says whether
it raises.  Any exception is caught at line 121 and logged, and the
function returns normally either way. -/
def clear_google_sheet_range (clearFails : Bool) :
    List SheetCall × List LogEvent :=
  ([SheetCall.clearRange "nrsi_confidence!A:W"],
   if clearFails then [LogEvent.clearFailed] else [LogEvent.clearedOk])

/-- Embedding of the destination-call behaviour of write_to_google_sheets
(source lines 125-167): first clear_google_sheet_range is called, then the
single update call on range nrsi_confidence!A1 is issued; updateFails says
whether the update raises, and its exception is caught at line 166 and
logged.  The result is the trace of destination calls issued and the log
lines printed, in order. -/
def write_to_google_sheets (clearFails updateFails : Bool) :
    List SheetCall × List LogEvent :=
  let c := clear_google_sheet_range clearFails
  (c.1 ++ [SheetCall.updateRange "nrsi_confidence!A1"],
   c.2 ++ if updateFails then [LogEvent.updateFailed] else [LogEvent.updateOk])

/-- The header row written by write_to_google_sheets (source lines
135-139). -/
def headers : List String :=
  ["Game ID", "Away Team", "Home Team", "Away Pitcher", "Home Pitcher",
   "Away ERA", "Away WHIP", "Away K/9", "Away BB/9", "Away H/9", "Away R/9",
   "Away HR/9", "Away IP", "Away GS",
   "Home ERA", "Home WHIP", "Home K/9", "Home BB/9", "Home H/9", "Home R/9",
   "Home HR/9", "Home IP", "Home GS"]

/-- The columns write_to_google_sheets converts to numeric (source lines
145-148). -/
def numeric_columns : List String :=
  ["Away ERA", "Away WHIP", "Away K/9", "Away BB/9", "Away H/9", "Away R/9",
   "Away HR/9", "Away IP", "Away GS",
   "Home ERA", "Home WHIP", "Home K/9", "Home BB/9", "Home H/9", "Home R/9",
   "Home HR/9", "Home IP", "Home GS"]

/-- Value of a decimal digit character. -/
def digitsToNat (ds : List Char) : Nat :=
  ds.foldl (fun acc c => acc * 10 + (c.toNat - Char.toNat '0')) 0

/-- Syntactic phase of the numeric parse: split a string into an optional
sign, integer digits and optional fractional digits; none when the string
is not of that shape. -/
def splitNumber (s : String) : Option (Bool × List Char × List Char) :=
  let cs := s.toList
  let signed : Bool × List Char :=
    match cs with
    | '-' :: r => (true, r)
    | '+' :: r => (false, r)
    | r => (false, r)
  let sp := signed.2.span Char.isDigit
  match sp.2 with
  | [] => if sp.1 = [] then none else some (signed.1, sp.1, [])
  | '.' :: fracPart =>
    if fracPart.all Char.isDigit ∧ (sp.1 ≠ [] ∨ fracPart ≠ []) then
      some (signed.1, sp.1, fracPart)
    else none
  | _ => none

/-- Numeric value of a split decimal string. -/
def partsToRat (neg : Bool) (intPart fracPart : List Char) : ℚ :=
  (if neg then -1 else 1) *
    ((digitsToNat intPart : ℚ) + (digitsToNat fracPart : ℚ) / 10 ^ fracPart.length)

/-- Modelled from the spec and the pandas contract of pd.to_numeric with
errors coerce (source line 149): a string of an optional sign, integer
digits and an optional fractional part parses to its rational value; any
other string yields none (NaN).  The exact float width is immaterial to
the claims, so values are rationals. -/
def parseDecimal (s : String) : Option ℚ :=
  (splitNumber s).map (fun p => partsToRat p.1 p.2.1 p.2.2)

/-- A cell of the written payload: either a number or a string. -/
inductive CellValue where
  | num (q : ℚ)
  | str (s : String)
deriving DecidableEq, Repr

/-- The per-cell effect on a numeric column of pd.to_numeric with errors
coerce followed by fillna with the empty string (source lines 149-152): a
parseable cell becomes its number, anything else becomes NaN and then the
empty string. -/
def coerceNumericCell (s : String) : CellValue :=
  match parseDecimal s with
  | some q => CellValue.num q
  | none => CellValue.str ""

example : coerceNumericCell "3.45" = CellValue.num (69 / 20) := by
  have h : splitNumber "3.45" = some (false, ['3'], ['4', '5']) := by decide
  have h1 : digitsToNat ['3'] = 3 := by decide
  have h2 : digitsToNat ['4', '5'] = 45 := by decide
  simp [coerceNumericCell, parseDecimal, h, partsToRat, h1, h2]
  norm_num
example : coerceNumericCell "" = CellValue.str "" := by decide
example : coerceNumericCell "abc" = CellValue.str "" := by decide
example : coerceNumericCell "-1.5" = CellValue.num (-3 / 2) := by
  have h : splitNumber "-1.5" = some (true, ['1'], ['5']) := by decide
  have h1 : digitsToNat ['1'] = 1 := by decide
  have h2 : digitsToNat ['5'] = 5 := by decide
  simp [coerceNumericCell, parseDecimal, h, partsToRat, h1, h2]
  norm_num
example : coerceNumericCell "12" = CellValue.num 12 := by
  have h : splitNumber "12" = some (false, ['1', '2'], []) := by decide
  have h1 : digitsToNat ['1', '2'] = 12 := by decide
  have h2 : digitsToNat [] = 0 := by decide
  simp [coerceNumericCell, parseDecimal, h, partsToRat, h1, h2]

/-! Helper lemmas about the embedded operations. -/

theorem cacheLookup_cons_self (c : Cache) (name : String) (i : Nat) :
    cacheLookup ((name, i) :: c) name = some i := by
  simp [cacheLookup]

theorem findPlayer_eq_none (roster : List Player) (name : String)
    (h : ∀ p ∈ roster, p.fullName ≠ name) : findPlayer roster name = none := by
  induction roster with
  | nil => rfl
  | cons p ps ih =>
    simp only [findPlayer]
    rw [if_neg (h p (by simp))]
    exact ih (fun q hq => h q (by simp [hq]))

theorem findPlayer_some_mem (roster : List Player) (name : String) (pid : Nat)
    (h : findPlayer roster name = some pid) :
    ∃ q ∈ roster, q.fullName = name ∧ q.id = pid := by
  induction roster with
  | nil => simp [findPlayer] at h
  | cons p ps ih =>
    by_cases hp : p.fullName = name
    · refine ⟨p, by simp, hp, ?_⟩
      simp [findPlayer, hp] at h
      exact h
    · simp only [findPlayer, if_neg hp] at h
      obtain ⟨q, hq, h1, h2⟩ := ih h
      exact ⟨q, by simp [hq], h1, h2⟩

theorem findPlayer_isSome_of_mem (roster : List Player) (name : String)
    (p : Player) (hp : p ∈ roster) (hname : p.fullName = name) :
    (findPlayer roster name).isSome := by
  induction roster with
  | nil => cases hp
  | cons q ps ih =>
    rcases List.mem_cons.mp hp with h | h
    · subst h
      simp [findPlayer, hname]
    · by_cases hq : q.fullName = name
      · simp [findPlayer, hq]
      · simp only [findPlayer, if_neg hq]
        exact ih h

theorem get_player_stats_loop_le (attempt : Nat → AttemptOutcome) :
    ∀ (fuel idx : Nat) (kb : Bool),
      (get_player_stats_loop attempt idx fuel kb).2 ≤ fuel := by
  intro fuel
  induction fuel with
  | zero =>
    intro idx kb
    cases kb <;> simp [get_player_stats_loop]
  | succ f ih =>
    intro idx kb
    simp only [get_player_stats_loop]
    cases attempt idx with
    | success stats => exact Nat.succ_le_succ (Nat.zero_le f)
    | raiseEarly => exact Nat.succ_le_succ (ih (idx + 1) kb)
    | raiseLate stats => exact Nat.succ_le_succ (ih (idx + 1) true)

/-! Claim theorems. -/

/-- C1: the claim says that when every retry attempt of get_player_stats
raises, the function returns the 9 placeholder empty strings and never
raises.  The code contradicts this and its own line-68 comment: when every
attempt raises before the relevant_keys assignment (e.g. the remote stats
call itself fails each time), the fall-through return references the
never-assigned local relevant_keys and the function raises
UnboundLocalError after issuing all 3 requests.  This theorem evaluates
the embedded function at such a failing input. -/
theorem C1_all_retries_fail_raises :
    get_player_stats (fun _ => AttemptOutcome.raiseEarly) 999 2025 3 =
      (Except.error StatsError.unboundLocalError, 3) := rfl

/-- For C2: a roster fetch that always succeeds with an empty roster, so a
lookup never matches. -/
def emptyRosterFetch : Nat → Option (List Player) := fun _ => some []

/-- C2 counterexample: when the first call finds no match the cache is not
written, so a second call with the same name issues a second roster fetch
— two fetches in total, refuting at most one fetch regardless of whether
the first call found a match. -/
theorem C2_counterexample :
    (get_player_id emptyRosterFetch [] "John Doe" 2025).fetches +
      (get_player_id emptyRosterFetch
        (get_player_id emptyRosterFetch [] "John Doe" 2025).cache
        "John Doe" 2025).fetches = 2 := rfl

/-- C2 amended: if the first call for a name resolves to an id (from the
cache or by a roster match), then a second call with the same name issues
no roster fetch and returns the same id from the cache, for any season. -/
theorem C2_amended_cached_after_match (fetch : Nat → Option (List Player))
    (cache : Cache) (name : String) (s1 s2 pid : Nat)
    (h : (get_player_id fetch cache name s1).result = some pid) :
    (get_player_id fetch (get_player_id fetch cache name s1).cache name s2).fetches = 0 ∧
    (get_player_id fetch (get_player_id fetch cache name s1).cache name s2).result = some pid := by
  cases hcl : cacheLookup cache name with
  | some i =>
    simp only [get_player_id, hcl] at h ⊢
    exact ⟨trivial, h⟩
  | none =>
    cases hf : fetch s1 with
    | none => simp [get_player_id, hcl, hf] at h
    | some roster =>
      cases hfp : findPlayer roster name with
      | none => simp [get_player_id, hcl, hf, hfp] at h
      | some i =>
        simp only [get_player_id, hcl, hf, hfp, Option.some.injEq] at h
        subst h
        simp [get_player_id, hcl, hf, hfp, cacheLookup_cons_self]

/-- Sample roster data used to instantiate resolver theorems. -/
def sampleRoster : List Player := [⟨"John Doe", 7⟩]

/-- A roster fetch that always returns the sample roster. -/
def sampleFetch : Nat → Option (List Player) := fun _ => some sampleRoster

/-- Witness for C2 amended at a concrete matching first call. -/
theorem C2_amended_witness :
    (get_player_id sampleFetch
      (get_player_id sampleFetch [] "John Doe" 2025).cache "John Doe" 2026).fetches = 0 :=
  (C2_amended_cached_after_match sampleFetch [] "John Doe" 2025 2026 7 (by decide)).1

/-- C3 counterexample: with a failing clear and a succeeding update, the
clear failure is logged and yet the range-write destination call is still
issued afterwards — the job does not terminate without further action
after a destination-store (clear) failure. -/
theorem C3_counterexample :
    (write_to_google_sheets true false).2 = [LogEvent.clearFailed, LogEvent.updateOk] ∧
    (write_to_google_sheets true false).1 =
      [SheetCall.clearRange "nrsi_confidence!A:W",
       SheetCall.updateRange "nrsi_confidence!A1"] :=
  ⟨rfl, rfl⟩

/-- C3 amended: each destination failure is caught and logged and never
retried or rolled back, but only a range-write failure ends the job with
no further destination action; after a range-clear failure the job
continues and still issues the single range-write call.  In every case the
destination trace is exactly one clear of A:W followed by one write at A1,
and the log records the outcome of each call in order. -/
theorem C3_amended_write_trace (cf uf : Bool) :
    (write_to_google_sheets cf uf).1 =
      [SheetCall.clearRange "nrsi_confidence!A:W",
       SheetCall.updateRange "nrsi_confidence!A1"] ∧
    (write_to_google_sheets cf uf).2 =
      [if cf then LogEvent.clearFailed else LogEvent.clearedOk,
       if uf then LogEvent.updateFailed else LogEvent.updateOk] := by
  cases cf <;> cases uf <;> exact ⟨rfl, rfl⟩

/-- C4: for a game with an absent (missing or empty) away probable pitcher
name, the row's nine away-stats fields (positions 5 to 13) are all empty
strings and no resolver or retriever call is issued for the away side;
symmetrically for the home side (positions 14 to 22). -/
theorem C4_absent_pitcher_empty_stats (resolve : String → Option Nat)
    (retrieve : Nat → List (String × String)) (g : Game) :
    (awayPitcherName g = "" →
      (process_game resolve retrieve g).awayResolverCalls = 0 ∧
      (process_game resolve retrieve g).awayRetrieverCalls = 0 ∧
      ((process_game resolve retrieve g).row.drop 5).take 9 = List.replicate 9 "") ∧
    (homePitcherName g = "" →
      (process_game resolve retrieve g).homeResolverCalls = 0 ∧
      (process_game resolve retrieve g).homeRetrieverCalls = 0 ∧
      (process_game resolve retrieve g).row.drop 14 = List.replicate 9 "") := by
  constructor
  · intro h
    refine ⟨?_, ?_, ?_⟩ <;>
      simp [process_game, h, pitcherSide, statsGet, relevant_keys, List.replicate]
  · intro h
    refine ⟨?_, ?_, ?_⟩ <;>
      simp [process_game, h, pitcherSide, statsGet, relevant_keys, List.replicate]

/-- Witness for C4 on a concrete game with both pitcher fields missing. -/
theorem C4_witness :
    ((process_game (fun _ => some 7) (fun _ => [])
      ⟨"g1", "A", "H", none, none⟩).row.drop 5).take 9 = List.replicate 9 "" :=
  ((C4_absent_pitcher_empty_stats (fun _ => some 7) (fun _ => [])
    ⟨"g1", "A", "H", none, none⟩).1 rfl).2.2

/-- C5: every assembled row has exactly 23 fields in the documented
positional layout: game id, away team, home team, away pitcher, home
pitcher, the nine away stat fields in key order, then the nine home stat
fields in the same order. -/
theorem C5_row_positional_layout (resolve : String → Option Nat)
    (retrieve : Nat → List (String × String)) (g : Game) :
    (process_game resolve retrieve g).row.length = 23 ∧
    (process_game resolve retrieve g).row =
      specOutputRow g.game_id g.away_name g.home_name
        (awayPitcherName g) (homePitcherName g)
        (statsGet (pitcherSide resolve retrieve (awayPitcherName g)).1)
        (statsGet (pitcherSide resolve retrieve (homePitcherName g)).1) :=
  ⟨rfl, rfl⟩

/-- C6: on a cache miss, get_player_id issues exactly one roster fetch, a
fetch error is logged and yields None rather than an exception, a roster
with no matching name yields None, and a roster containing the name yields
the id of a matching entry; there is never a retry on this path. -/
theorem C6_resolver_contract (fetch : Nat → Option (List Player))
    (cache : Cache) (name : String) (season : Nat)
    (h : cacheLookup cache name = none) :
    (get_player_id fetch cache name season).fetches = 1 ∧
    (get_player_id fetch cache name season).errorLogged = (fetch season).isNone ∧
    (fetch season = none → (get_player_id fetch cache name season).result = none) ∧
    (∀ roster, fetch season = some roster →
      ((∀ p ∈ roster, p.fullName ≠ name) →
        (get_player_id fetch cache name season).result = none) ∧
      (∀ p ∈ roster, p.fullName = name →
        ∃ q ∈ roster, q.fullName = name ∧
          (get_player_id fetch cache name season).result = some q.id)) := by
  cases hf : fetch season with
  | none =>
    refine ⟨?_, ?_, ?_, ?_⟩ <;> simp [get_player_id, h, hf]
  | some roster =>
    refine ⟨?_, ?_, ?_, ?_⟩
    · cases hfp : findPlayer roster name <;> simp [get_player_id, h, hf, hfp]
    · cases hfp : findPlayer roster name <;> simp [get_player_id, h, hf, hfp]
    · intro hc
      simp at hc
    · intro r hr
      injection hr with hrr
      subst hrr
      constructor
      · intro hnone
        simp [get_player_id, h, hf, findPlayer_eq_none roster name hnone]
      · intro p hp hname
        have hs := findPlayer_isSome_of_mem roster name p hp hname
        cases hfp : findPlayer roster name with
        | none => rw [hfp] at hs; cases hs
        | some pid =>
          obtain ⟨q, hq, hq1, hq2⟩ := findPlayer_some_mem roster name pid hfp
          refine ⟨q, hq, hq1, ?_⟩
          simp [get_player_id, h, hf, hfp, hq2]

/-- Witness for C6 at a concrete empty cache and sample roster. -/
theorem C6_witness :
    (get_player_id sampleFetch [] "John Doe" 2025).fetches = 1 :=
  (C6_resolver_contract sampleFetch [] "John Doe" 2025 rfl).1

/-- C7: the Sheet Writer coerces the 18 stat columns cell-wise: the string
3.45 becomes the rational 69/20, the empty string stays blank, and any
string that does not parse as a number is coerced to blank. -/
theorem C7_numeric_coercion :
    numeric_columns.length = 18 ∧
    coerceNumericCell "3.45" = CellValue.num (69 / 20) ∧
    coerceNumericCell "" = CellValue.str "" ∧
    ∀ s : String, parseDecimal s = none → coerceNumericCell s = CellValue.str "" := by
  refine ⟨rfl, ?_, by decide, ?_⟩
  · have h : splitNumber "3.45" = some (false, ['3'], ['4', '5']) := by decide
    have h1 : digitsToNat ['3'] = 3 := by decide
    have h2 : digitsToNat ['4', '5'] = 45 := by decide
    simp [coerceNumericCell, parseDecimal, h, partsToRat, h1, h2]
    norm_num
  · intro s hs
    simp [coerceNumericCell, hs]

/-- Witness for C7 at a concrete non-numeric cell. -/
theorem C7_witness : coerceNumericCell "abc" = CellValue.str "" :=
  C7_numeric_coercion.2.2.2 "abc" (by decide)

/-- C8: the Statistics Retriever issues at most retries underlying stats
requests; the retry loop is bounded by the budget and terminates (the
embedding is a total function by structural recursion on the budget). -/
theorem C8_retry_bounded (attempt : Nat → AttemptOutcome)
    (player_id season retries : Nat) :
    (get_player_stats attempt player_id season retries).2 ≤ retries :=
  get_player_stats_loop_le attempt retries 0 false

/-- C9: the identifier cache is keyed by name alone: when the name is
already cached, get_player_id returns the cached id with no fetch, and its
entire result is identical for any two season arguments. -/
theorem C9_cache_ignores_season (fetch : Nat → Option (List Player))
    (cache : Cache) (name : String) (pid : Nat)
    (h : cacheLookup cache name = some pid) (s1 s2 : Nat) :
    get_player_id fetch cache name s1 = get_player_id fetch cache name s2 ∧
    (get_player_id fetch cache name s1).result = some pid ∧
    (get_player_id fetch cache name s1).fetches = 0 := by
  refine ⟨?_, ?_, ?_⟩ <;> simp [get_player_id, h]

/-- Witness for C9: a name cached under one season is served verbatim for
a different season. -/
theorem C9_witness :
    (get_player_id sampleFetch [("John Doe", 7)] "John Doe" 2031).result = some 7 :=
  (C9_cache_ignores_season sampleFetch [("John Doe", 7)] "John Doe" 7 rfl 2031 1999).2.1

/-- C10: the cache gains an entry only on a successful roster match: any
call that returns None (no match, or fetch error) leaves the cache exactly
as it was. -/
theorem C10_cache_unchanged_on_none (fetch : Nat → Option (List Player))
    (cache : Cache) (name : String) (season : Nat)
    (h : (get_player_id fetch cache name season).result = none) :
    (get_player_id fetch cache name season).cache = cache := by
  cases hcl : cacheLookup cache name with
  | some i => simp [get_player_id, hcl] at h
  | none =>
    cases hf : fetch season with
    | none => simp [get_player_id, hcl, hf]
    | some roster =>
      cases hfp : findPlayer roster name with
      | none => simp [get_player_id, hcl, hf, hfp]
      | some i => simp [get_player_id, hcl, hf, hfp] at h

/-- For the C10 witness: a roster fetch that always raises. -/
def failingFetch : Nat → Option (List Player) := fun _ => none

/-- Witness for C10 at a concrete failing fetch. -/
theorem C10_witness :
    (get_player_id failingFetch [] "John Doe" 2025).cache = [] :=
  C10_cache_unchanged_on_none failingFetch [] "John Doe" 2025 rfl

end SheetCombine
